import Mathlib

/-!
Shallow embedding of the isengard update-decision and safe-recreation engine.

The Go sources embedded here are:
  * `internal/registry/registry.go` — image reference parsing, registry v2
    digest checking with the 401 challenge / token-exchange flow;
  * `internal/container` — container recreation (`Recreate`, `RecreateSelf`)
    and mount/volume deduplication;
  * `internal/updater` — the hybrid update decision (`checkForUpdate`,
    `pullAndCompare`, `extractLocalDigest`) and candidate filtering
    (`shouldSkip`).

Effectful engine/HTTP calls are modelled by oracles: a structure of
`Except`-valued fields describing what each external call would return.
Each embedded operation returns the trace of external calls it issued
together with its result, so ordering and error-propagation claims are
statements about traces.

Go byte-index string operations (`strings.LastIndex` etc.) are modelled on
`List Char`; for slicing at the position of a found ASCII character the two
views agree. `strings.EqualFold` is modelled as ASCII case folding, which
agrees with Go on the ASCII label values (`"true"` / `"false"`) the code
compares against.
-/

namespace Isengard

/-- Index of the last occurrence of character `c` in `l`
(Go `strings.LastIndex` with a one-character needle), if any. -/
def lastIdx (l : List Char) (c : Char) : Option Nat :=
  match l with
  | [] => none
  | a :: rest =>
    match lastIdx rest c with
    | some i => some (i + 1)
    | none => if a = c then some 0 else none

/-- Index of the first occurrence of character `c` in `s`
(Go `strings.Index` with a one-character needle), if any. -/
def firstIdx (l : List Char) (c : Char) : Option Nat :=
  l.findIdx? (fun a => a == c)

/-- Prefix of `s` of length `n` (Go `s[:n]` at a found character position). -/
def strTake (s : String) (n : Nat) : String :=
  String.mk (s.data.take n)

/-- Suffix of `s` from position `n` (Go `s[n:]` at a found character position). -/
def strDrop (s : String) (n : Nat) : String :=
  String.mk (s.data.drop n)

/-- Whether `s` contains character `c`
(Go `strings.Contains` with a one-character needle). -/
def strContainsChar (s : String) (c : Char) : Bool :=
  s.data.contains c

/-- Result of Go `strings.SplitN(s, c, 2)` when `c` occurs in `s`:
the part before the first occurrence and the part after it. -/
def splitFirst (s : String) (c : Char) : String × String :=
  match firstIdx s.data c with
  | some i => (strTake s i, strDrop s (i + 1))
  | none => (s, "")

/-- Parsed Docker image reference (`ImageRef` in `registry.go`). -/
structure ImageRef where
  registry : String
  repository : String
  tag : String
deriving DecidableEq, Repr

/-- The canonical Docker Hub registry host used by `ParseImageRef`. -/
def dockerHub : String := "registry-1.docker.io"

/-- Digest-stripping step of `ParseImageRef`: remove a trailing `@digest`
suffix (everything from the last `@` on) if present. -/
def stripDigest (s : String) : String :=
  match lastIdx s.data '@' with
  | some i => strTake s i
  | none => s

/-- Tag-extraction step of `ParseImageRef`: returns `(remaining ref, tag)`.
A trailing `:tag` is split off only when the last colon comes after the
last slash (colons before a slash are registry ports); with no slash at
all, any colon is a tag separator. Tag defaults to `"latest"`. -/
def splitTag (s : String) : String × String :=
  match lastIdx s.data '/' with
  | some lastSlash =>
    match lastIdx s.data ':' with
    | some lastColon =>
      if lastSlash < lastColon then
        (strTake s lastColon, strDrop s (lastColon + 1))
      else (s, "latest")
    | none => (s, "latest")
  | none =>
    match lastIdx s.data ':' with
    | some lastColon => (strTake s lastColon, strDrop s (lastColon + 1))
    | none => (s, "latest")

/-- Registry/repository determination step of `ParseImageRef`, applied to
the reference after digest and tag stripping: if the ref contains a `/`
and its first segment looks like a registry host (has a dot, a colon, or
is `localhost`), use it as the registry (normalizing the Docker Hub
aliases); otherwise everything is a repository on Docker Hub. -/
def splitHost (ref : String) : String × String :=
  if strContainsChar ref '/' then
    let parts := splitFirst ref '/'
    let first := parts.1
    if strContainsChar first '.' || strContainsChar first ':' || first == "localhost" then
      let reg :=
        if first == "docker.io" || first == "index.docker.io" then dockerHub else first
      (reg, parts.2)
    else (dockerHub, ref)
  else (dockerHub, ref)

/-- Library-namespace expansion step of `ParseImageRef`: a bare repository
name on Docker Hub is expanded to `library/<name>`. -/
def expandLibrary (registry repository : String) : String :=
  if registry == dockerHub && !strContainsChar repository '/' then
    "library/" ++ repository
  else repository

/-- Embedding of `ParseImageRef` from `registry.go`. -/
def ParseImageRef (imageRef : String) : ImageRef :=
  let ref := stripDigest imageRef
  let rt := splitTag ref
  let rr := splitHost rt.1
  { registry := rr.1
    repository := expandLibrary rr.1 rr.2
    tag := rt.2 }

/-- Whether the code's tag-qualification rule finds a tag colon in `s`:
with a slash, the last colon must come after the last slash; with no
slash, any colon qualifies. -/
def hasTagColon (s : String) : Bool :=
  match lastIdx s.data '/' with
  | some lastSlash =>
    match lastIdx s.data ':' with
    | some lastColon => decide (lastSlash < lastColon)
    | none => false
  | none => (lastIdx s.data ':').isSome

theorem lastIdx_eq_none_of_not_contains {l : List Char} {c : Char}
    (h : l.contains c = false) : lastIdx l c = none := by
  induction l with
  | nil => rfl
  | cons a rest ih =>
    simp only [List.contains_cons, Bool.or_eq_false_iff] at h
    simp only [lastIdx, ih h.2]
    have : ¬ a = c := by
      intro hac
      subst hac
      simp at h
    simp [this]

theorem take_not_contains {l : List Char} {c : Char} (n : Nat)
    (h : l.contains c = false) : (l.take n).contains c = false := by
  rw [Bool.eq_false_iff] at h ⊢
  intro hc
  apply h
  simp only [List.contains_eq_any_beq, List.any_eq_true] at hc ⊢
  obtain ⟨x, hx, hb⟩ := hc
  exact ⟨x, List.mem_of_mem_take hx, hb⟩

theorem splitTag_fst_not_contains {s : String} {c : Char}
    (h : strContainsChar s c = false) :
    strContainsChar (splitTag s).1 c = false := by
  unfold strContainsChar at *
  unfold splitTag
  cases h1 : lastIdx s.data '/' with
  | some ls =>
    cases h2 : lastIdx s.data ':' with
    | some lc =>
      by_cases hlt : ls < lc
      · simpa [hlt, strTake] using take_not_contains lc h
      · simpa [hlt] using h
    | none => simpa using h
  | none =>
    cases h2 : lastIdx s.data ':' with
    | some lc => simpa [strTake] using take_not_contains lc h
    | none => simpa using h

theorem stripDigest_not_contains {s : String} {c : Char}
    (h : strContainsChar s c = false) :
    strContainsChar (stripDigest s) c = false := by
  unfold strContainsChar at *
  unfold stripDigest
  cases h1 : lastIdx s.data '@' with
  | some i => simpa [strTake] using take_not_contains i h
  | none => simpa using h

/-- C8 part 1: with no slash anywhere in the input, parsing resolves to
Docker Hub with a `library/`-expanded repository. -/
theorem parseImageRef_no_slash (s : String)
    (h : strContainsChar s '/' = false) :
    (ParseImageRef s).registry = dockerHub ∧
    (ParseImageRef s).repository = "library/" ++ (splitTag (stripDigest s)).1 := by
  have h1 : strContainsChar (stripDigest s) '/' = false := stripDigest_not_contains h
  have h2 : strContainsChar (splitTag (stripDigest s)).1 '/' = false :=
    splitTag_fst_not_contains h1
  unfold ParseImageRef splitHost expandLibrary
  simp only [h2]
  constructor
  · simp
  · simp [h2]

theorem splitTag_port_colon {s : String} {lc ls : Nat}
    (hc : lastIdx s.data ':' = some lc) (hs : lastIdx s.data '/' = some ls)
    (hlt : lc < ls) : splitTag s = (s, "latest") := by
  unfold splitTag
  rw [hs, hc]
  have h : ¬ ls < lc := by omega
  simp [h]

theorem splitTag_no_tag_colon {s : String} (h : hasTagColon s = false) :
    splitTag s = (s, "latest") := by
  unfold hasTagColon at h
  unfold splitTag
  cases h1 : lastIdx s.data '/' with
  | some ls =>
    cases h2 : lastIdx s.data ':' with
    | some lc =>
      rw [h1, h2] at h
      simp only [decide_eq_false_iff_not] at h
      simp [h]
    | none => simp
  | none =>
    cases h2 : lastIdx s.data ':' with
    | some lc =>
      rw [h1, h2] at h
      simp at h
    | none => simp

/-- C8: for a reference with no slash, `ParseImageRef` resolves to the
default registry with a `library/`-expanded repository; a colon whose last
occurrence comes before the last slash (a registry port) is not treated as
a tag separator, so the reference is not truncated there and the tag
defaults to `"latest"`; and whenever no qualifying tag colon is present
the tag defaults to `"latest"`. -/
theorem c8_parse_image_ref_spec :
    (∀ s : String, strContainsChar s '/' = false →
      (ParseImageRef s).registry = dockerHub ∧
      (ParseImageRef s).repository = "library/" ++ (splitTag (stripDigest s)).1) ∧
    (∀ s : String, ∀ lc ls : Nat, lastIdx (stripDigest s).data ':' = some lc →
      lastIdx (stripDigest s).data '/' = some ls → lc < ls →
      (ParseImageRef s).tag = "latest" ∧
      (ParseImageRef s).registry = (splitHost (stripDigest s)).1 ∧
      (ParseImageRef s).repository =
        expandLibrary (splitHost (stripDigest s)).1 (splitHost (stripDigest s)).2) ∧
    (∀ s : String, hasTagColon (stripDigest s) = false →
      (ParseImageRef s).tag = "latest") := by
  refine ⟨parseImageRef_no_slash, ?_, ?_⟩
  · intro s lc ls hc hs hlt
    have hsplit := splitTag_port_colon hc hs hlt
    simp only [ParseImageRef, hsplit]
    exact ⟨trivial, trivial, trivial⟩
  · intro s h
    have hsplit := splitTag_no_tag_colon h
    simp only [ParseImageRef, hsplit]

/-- Witness for C8 at concrete references. -/
theorem c8_parse_image_ref_spec_witness :
    (ParseImageRef "nginx").registry = dockerHub ∧
    (ParseImageRef "nginx").repository = "library/nginx" ∧
    (ParseImageRef "registry.example.com:5000/img").tag = "latest" := by
  have h1 := c8_parse_image_ref_spec.1 "nginx" (by decide)
  have h2 := c8_parse_image_ref_spec.2.2 "registry.example.com:5000/img" (by decide)
  refine ⟨h1.1, ?_, h2⟩
  rw [h1.2]
  decide

/-- ASCII whitespace recognized by Go `strings.TrimSpace` (the Unicode
space characters outside ASCII do not occur in HTTP headers). -/
def isGoSpace (c : Char) : Bool :=
  c == ' ' || c == '\t' || c == '\n' || c == '\x0b' || c == '\x0c' || c == '\r'

/-- Embedding of Go `strings.TrimSpace` (ASCII whitespace). -/
def trimSpace (s : String) : String :=
  String.mk (((s.data.dropWhile isGoSpace).reverse.dropWhile isGoSpace).reverse)

/-- Accumulator loop of `splitChallengeParts`: split on commas that are
not inside double quotes; the current chunk is kept in reverse order. -/
def splitChallengeAux : List Char → Bool → List Char → List String
  | [], _, current =>
    if current.isEmpty then [] else [String.mk current.reverse]
  | r :: rest, inQuotes, current =>
    if r == '"' then splitChallengeAux rest (!inQuotes) (r :: current)
    else if r == ',' && !inQuotes then
      String.mk current.reverse :: splitChallengeAux rest inQuotes []
    else splitChallengeAux rest inQuotes (r :: current)

/-- Embedding of `splitChallengeParts` from `registry.go`. -/
def splitChallengeParts (s : String) : List String :=
  splitChallengeAux s.data false []

/-- Go map assignment `m[k] = v` on an association-list model:
replace the existing binding or append a new one. -/
def mapSet (m : List (String × String)) (k v : String) : List (String × String) :=
  if m.any (fun p => p.1 == k) then
    m.map (fun p => if p.1 == k then (k, v) else p)
  else m ++ [(k, v)]

/-- Go map read `m[k]` on the association-list model, `""` when absent. -/
def mapGet (m : List (String × String)) (k : String) : String :=
  match m.find? (fun p => p.1 == k) with
  | some p => p.2
  | none => ""

/-- Structural Bool test that `pre` is a character prefix of `s`
(Go `strings.HasPrefix` on valid UTF-8). -/
def charsLeadWith : List Char → List Char → Bool
  | _, [] => true
  | [], _ :: _ => false
  | a :: s, b :: p => a == b && charsLeadWith s p

/-- String wrapper for `charsLeadWith`. -/
def strStartsWith (s pre : String) : Bool :=
  charsLeadWith s.data pre.data

/-- Strip a `Bearer ` / `bearer ` scheme marker from the challenge value. -/
def stripBearer (s : String) : String :=
  if strStartsWith s "Bearer " then strDrop s 7
  else if strStartsWith s "bearer " then strDrop s 7
  else s

/-- Strip one pair of surrounding double quotes (Go
`len(val) >= 2 && val[0] == quote && val[len(val)-1] == quote`). -/
def stripQuotes (v : String) : String :=
  let l := v.data
  if 2 ≤ l.length && l.head? == some '"' && l.getLast? == some '"' then
    String.mk ((l.drop 1).take (l.length - 2))
  else v

/-- One `key=value` item of the challenge header: parts without `=` are
dropped; key and value are trimmed and the value unquoted. -/
def parseChallengePart (params : List (String × String)) (part : String) :
    List (String × String) :=
  let part := trimSpace part
  match firstIdx part.data '=' with
  | none => params
  | some eq =>
    let key := trimSpace (strTake part eq)
    let val := stripQuotes (trimSpace (strDrop part (eq + 1)))
    mapSet params key val

/-- Embedding of `parseChallenge` from `registry.go`. -/
def parseChallenge (header : String) : List (String × String) :=
  let header := stripBearer (trimSpace header)
  (splitChallengeParts header).foldl parseChallengePart []

/-- Observable part of an HTTP response to a manifest HEAD request:
status code and the two headers the client reads (`""` when absent,
matching Go `Header.Get`). -/
structure HttpResponse where
  statusCode : Nat
  digestHeader : String
  wwwAuthenticate : String
deriving DecidableEq, Repr

/-- Decoded JSON body of a token-endpoint response (`tokenResponse` in
`registry.go`): absent fields decode to `""`. -/
structure TokenBody where
  token : String
  accessToken : String
deriving DecidableEq, Repr

/-- Oracle for one `CheckDigest` call: what each external HTTP interaction
would return. `firstResp`/`secondResp` are the transport results of the
two manifest HEAD requests; `tokenStatus` is the transport result of the
token request; `tokenBody` the result of decoding its JSON body;
`creds` the `credentialsForRegistry` lookup. -/
structure RegistryOracle where
  firstResp : Except String HttpResponse
  tokenStatus : Except String Nat
  tokenBody : Except String TokenBody
  secondResp : Except String HttpResponse
  creds : Option (String × String)

/-- One outbound HTTP request issued by the registry client. -/
inductive RegEvent where
  | headManifest (bearer : Option String)
  | tokenRequest (url : String)
deriving DecidableEq, Repr

/-- Whether a registry event is a token-endpoint request. -/
def isTokenEvent : RegEvent → Bool
  | .tokenRequest _ => true
  | _ => false

/-- Whether a registry event is a manifest HEAD carrying a bearer token. -/
def isBearerHead : RegEvent → Bool
  | .headManifest (some _) => true
  | _ => false

/-- Whether an `Except` result is an error. -/
def isErr {ε α : Type} : Except ε α → Bool
  | .error _ => true
  | .ok _ => false

/-- Token URL built by `exchangeToken` from the challenge parameters,
with the pull scope defaulted from the repository. -/
def tokenURLOf (params : List (String × String)) (ref : ImageRef) : String :=
  let u := mapGet params "realm" ++ "?"
  let u := if mapGet params "service" != "" then
      u ++ "service=" ++ mapGet params "service" ++ "&"
    else u
  if mapGet params "scope" != "" then u ++ "scope=" ++ mapGet params "scope"
  else u ++ "scope=repository:" ++ ref.repository ++ ":pull"

/-- Embedding of `exchangeToken` from `registry.go`: parse the challenge,
fail without issuing a request when the realm is missing, otherwise issue
one token request and accept the `token` field, falling back to
`access_token`, failing when both are empty. -/
def exchangeToken (o : RegistryOracle) (challenge : String) (ref : ImageRef) :
    List RegEvent × Except String String :=
  let params := parseChallenge challenge
  let realm := mapGet params "realm"
  if realm == "" then ([], .error ("no realm in challenge: " ++ challenge))
  else
    let tokenURL := tokenURLOf params ref
    match o.tokenStatus with
    | .error e => ([.tokenRequest tokenURL], .error ("token request: " ++ e))
    | .ok status =>
      if status != 200 then
        ([.tokenRequest tokenURL], .error "token endpoint returned non-200")
      else
        match o.tokenBody with
        | .error e => ([.tokenRequest tokenURL], .error ("decoding token response: " ++ e))
        | .ok body =>
          let token := if body.token != "" then body.token else body.accessToken
          if token == "" then ([.tokenRequest tokenURL], .error "empty token in response")
          else ([.tokenRequest tokenURL], .ok token)

/-- Embedding of `CheckDigest` from `registry.go`, returning the trace of
HTTP requests issued alongside the result. -/
def CheckDigest (o : RegistryOracle) (imageRef : String) :
    List RegEvent × Except String String :=
  let ref := ParseImageRef imageRef
  match o.firstResp with
  | .error e => ([.headManifest none], .error ("HEAD manifest: " ++ e))
  | .ok resp =>
    if resp.statusCode == 200 then
      if resp.digestHeader != "" then ([.headManifest none], .ok resp.digestHeader)
      else ([.headManifest none], .error "200 OK but no Docker-Content-Digest header")
    else if resp.statusCode == 401 then
      if resp.wwwAuthenticate == "" then
        ([.headManifest none], .error "401 with no Www-Authenticate header")
      else
        match exchangeToken o resp.wwwAuthenticate ref with
        | (tevts, .error e) =>
          (.headManifest none :: tevts, .error ("token exchange: " ++ e))
        | (tevts, .ok token) =>
          let trace := .headManifest none :: tevts ++ [.headManifest (some token)]
          match o.secondResp with
          | .error e => (trace, .error ("authenticated HEAD manifest: " ++ e))
          | .ok r2 =>
            if r2.statusCode != 200 then
              (trace, .error "authenticated HEAD returned non-200")
            else if r2.digestHeader != "" then (trace, .ok r2.digestHeader)
            else (trace, .error "authenticated 200 OK but no Docker-Content-Digest header")
    else ([.headManifest none], .error "unexpected status from manifest HEAD")

theorem exchangeToken_realm_missing {o : RegistryOracle} {ch : String} {ref : ImageRef}
    (h : mapGet (parseChallenge ch) "realm" = "") :
    exchangeToken o ch ref = ([], .error ("no realm in challenge: " ++ ch)) := by
  simp [exchangeToken, h]

theorem exchangeToken_trace {o : RegistryOracle} {ch : String} {ref : ImageRef}
    (h : mapGet (parseChallenge ch) "realm" ≠ "") :
    (exchangeToken o ch ref).1 = [.tokenRequest (tokenURLOf (parseChallenge ch) ref)] := by
  unfold exchangeToken
  rw [if_neg (by simpa using h)]
  rcases o.tokenStatus with e | status
  · rfl
  · dsimp only
    split
    · rfl
    · rcases o.tokenBody with e | body
      · rfl
      · dsimp only
        split
        · split <;> rfl
        · split <;> rfl

theorem exchangeToken_result_of_body {o : RegistryOracle} {ch : String}
    {ref : ImageRef} {body : TokenBody}
    (h : mapGet (parseChallenge ch) "realm" ≠ "")
    (hts : o.tokenStatus = .ok 200) (htb : o.tokenBody = .ok body) :
    (exchangeToken o ch ref).2 =
      (if body.token != "" then .ok body.token
       else if body.accessToken != "" then .ok body.accessToken
       else .error "empty token in response") := by
  unfold exchangeToken
  rw [if_neg (by simpa using h), hts]
  dsimp only
  rw [if_neg (by simp), htb]
  dsimp only
  by_cases ht : body.token = ""
  · simp only [ht]
    by_cases ha : body.accessToken = "" <;> simp [ha]
  · simp [ht]

theorem checkDigest_first_error {o : RegistryOracle} {r : String} {e : String}
    (hf : o.firstResp = .error e) :
    CheckDigest o r = ([.headManifest none], .error ("HEAD manifest: " ++ e)) := by
  unfold CheckDigest
  rw [hf]

theorem checkDigest_200 {o : RegistryOracle} {r : String} {resp : HttpResponse}
    (hf : o.firstResp = .ok resp) (hs : resp.statusCode = 200) :
    CheckDigest o r =
      (if resp.digestHeader != "" then ([.headManifest none], .ok resp.digestHeader)
       else ([.headManifest none],
             .error "200 OK but no Docker-Content-Digest header")) := by
  unfold CheckDigest
  rw [hf]
  dsimp only
  rw [if_pos (by simp [hs])]

theorem checkDigest_other {o : RegistryOracle} {r : String} {resp : HttpResponse}
    (hf : o.firstResp = .ok resp) (hs2 : resp.statusCode ≠ 200)
    (hs4 : resp.statusCode ≠ 401) :
    CheckDigest o r =
      ([.headManifest none], .error "unexpected status from manifest HEAD") := by
  unfold CheckDigest
  rw [hf]
  dsimp only
  rw [if_neg (by simp [hs2]), if_neg (by simp [hs4])]

theorem checkDigest_401_no_challenge {o : RegistryOracle} {r : String}
    {resp : HttpResponse} (hf : o.firstResp = .ok resp)
    (hs : resp.statusCode = 401) (hw : resp.wwwAuthenticate = "") :
    CheckDigest o r =
      ([.headManifest none], .error "401 with no Www-Authenticate header") := by
  unfold CheckDigest
  rw [hf]
  dsimp only
  rw [if_neg (by simp [hs]), if_pos (by simp [hs]), if_pos (by simp [hw])]

theorem checkDigest_401 {o : RegistryOracle} {r : String} {resp : HttpResponse}
    (hf : o.firstResp = .ok resp) (hs : resp.statusCode = 401)
    (hw : resp.wwwAuthenticate ≠ "") :
    CheckDigest o r =
      (match exchangeToken o resp.wwwAuthenticate (ParseImageRef r) with
       | (tevts, .error e) =>
         (.headManifest none :: tevts, .error ("token exchange: " ++ e))
       | (tevts, .ok token) =>
         let trace := .headManifest none :: tevts ++ [.headManifest (some token)]
         match o.secondResp with
         | .error e => (trace, .error ("authenticated HEAD manifest: " ++ e))
         | .ok r2 =>
           if r2.statusCode != 200 then
             (trace, .error "authenticated HEAD returned non-200")
           else if r2.digestHeader != "" then (trace, .ok r2.digestHeader)
           else (trace,
                 .error "authenticated 200 OK but no Docker-Content-Digest header")) := by
  unfold CheckDigest
  rw [hf]
  dsimp only
  rw [if_neg (by simp [hs]), if_pos (by simp [hs]), if_neg (by simpa using hw)]

theorem exchangeToken_ok_realm {o : RegistryOracle} {ch : String} {ref : ImageRef}
    {tevts : List RegEvent} {tok : String}
    (hx : exchangeToken o ch ref = (tevts, .ok tok)) :
    mapGet (parseChallenge ch) "realm" ≠ "" := by
  intro h
  rw [exchangeToken_realm_missing h] at hx
  simp at hx

theorem checkDigest_401_err {o : RegistryOracle} {r : String} {resp : HttpResponse}
    {tevts : List RegEvent} {e : String}
    (hf : o.firstResp = .ok resp) (hs : resp.statusCode = 401)
    (hw : resp.wwwAuthenticate ≠ "")
    (hx : exchangeToken o resp.wwwAuthenticate (ParseImageRef r) = (tevts, .error e)) :
    CheckDigest o r =
      (.headManifest none :: tevts, .error ("token exchange: " ++ e)) := by
  rw [checkDigest_401 hf hs hw, hx]

theorem checkDigest_401_ok_trace {o : RegistryOracle} {r : String}
    {resp : HttpResponse} {tevts : List RegEvent} {tok : String}
    (hf : o.firstResp = .ok resp) (hs : resp.statusCode = 401)
    (hw : resp.wwwAuthenticate ≠ "")
    (hx : exchangeToken o resp.wwwAuthenticate (ParseImageRef r) = (tevts, .ok tok)) :
    (CheckDigest o r).1 = .headManifest none :: tevts ++ [.headManifest (some tok)] := by
  rw [checkDigest_401 hf hs hw, hx]
  rcases o.secondResp with e2 | r2
  · rfl
  · dsimp only
    split
    · rfl
    · split <;> rfl

theorem checkDigest_401_ok_result {o : RegistryOracle} {r : String}
    {resp : HttpResponse} {tevts : List RegEvent} {tok : String}
    (hf : o.firstResp = .ok resp) (hs : resp.statusCode = 401)
    (hw : resp.wwwAuthenticate ≠ "")
    (hx : exchangeToken o resp.wwwAuthenticate (ParseImageRef r) = (tevts, .ok tok)) :
    (CheckDigest o r).2 =
      (match o.secondResp with
       | .error e => .error ("authenticated HEAD manifest: " ++ e)
       | .ok r2 =>
         if r2.statusCode != 200 then .error "authenticated HEAD returned non-200"
         else if r2.digestHeader != "" then .ok r2.digestHeader
         else .error "authenticated 200 OK but no Docker-Content-Digest header") := by
  rw [checkDigest_401 hf hs hw, hx]
  rcases o.secondResp with e2 | r2
  · rfl
  · dsimp only
    split
    · rfl
    · split <;> rfl

/-- C3: `CheckDigest` succeeds with a digest exactly when a manifest HEAD
response is 200 with a non-empty `Docker-Content-Digest` header; a 200
without the header is an error; a first response that is neither 200 nor
401 (or a transport failure) is an error; a 401 triggers at most one token
exchange — none and an error when no realm can be extracted, exactly one
otherwise — accepting the `token` field, falling back to `access_token`,
failing when both are empty, and on success exactly one retried HEAD
carries the bearer token, whose non-200 result or missing digest header
is an error. -/
theorem c3_check_digest_spec (o : RegistryOracle) (r : String) :
    (∀ resp, o.firstResp = .ok resp → resp.statusCode = 200 →
      (resp.digestHeader ≠ "" →
        CheckDigest o r = ([.headManifest none], .ok resp.digestHeader)) ∧
      (resp.digestHeader = "" → isErr (CheckDigest o r).2 = true)) ∧
    (∀ e, o.firstResp = .error e → isErr (CheckDigest o r).2 = true) ∧
    (∀ resp, o.firstResp = .ok resp → resp.statusCode ≠ 200 → resp.statusCode ≠ 401 →
      isErr (CheckDigest o r).2 = true ∧ (CheckDigest o r).1 = [.headManifest none]) ∧
    (∀ resp, o.firstResp = .ok resp → resp.statusCode = 401 →
      ((resp.wwwAuthenticate = "" ∨
          mapGet (parseChallenge resp.wwwAuthenticate) "realm" = "") →
        isErr (CheckDigest o r).2 = true ∧
        (CheckDigest o r).1.countP isTokenEvent = 0 ∧
        (CheckDigest o r).1.countP isBearerHead = 0) ∧
      (resp.wwwAuthenticate ≠ "" →
        mapGet (parseChallenge resp.wwwAuthenticate) "realm" ≠ "" →
        (CheckDigest o r).1.countP isTokenEvent = 1) ∧
      (∀ body, resp.wwwAuthenticate ≠ "" →
        mapGet (parseChallenge resp.wwwAuthenticate) "realm" ≠ "" →
        o.tokenStatus = .ok 200 → o.tokenBody = .ok body →
        (body.token = "" → body.accessToken = "" →
          isErr (CheckDigest o r).2 = true) ∧
        (body.token ≠ "" →
          (exchangeToken o resp.wwwAuthenticate (ParseImageRef r)).2 =
            .ok body.token) ∧
        (body.token = "" → body.accessToken ≠ "" →
          (exchangeToken o resp.wwwAuthenticate (ParseImageRef r)).2 =
            .ok body.accessToken)) ∧
      (∀ tevts tok, resp.wwwAuthenticate ≠ "" →
        exchangeToken o resp.wwwAuthenticate (ParseImageRef r) = (tevts, .ok tok) →
        (CheckDigest o r).1 =
          .headManifest none :: tevts ++ [.headManifest (some tok)] ∧
        (CheckDigest o r).1.countP isBearerHead = 1 ∧
        (∀ e2, o.secondResp = .error e2 → isErr (CheckDigest o r).2 = true) ∧
        (∀ r2, o.secondResp = .ok r2 →
          (r2.statusCode ≠ 200 → isErr (CheckDigest o r).2 = true) ∧
          (r2.statusCode = 200 → r2.digestHeader = "" →
            isErr (CheckDigest o r).2 = true) ∧
          (r2.statusCode = 200 → r2.digestHeader ≠ "" →
            (CheckDigest o r).2 = .ok r2.digestHeader)))) ∧
    (isErr (CheckDigest o r).2 = false ↔
      ((∃ resp, o.firstResp = .ok resp ∧ resp.statusCode = 200 ∧
          resp.digestHeader ≠ "") ∨
       (∃ resp tevts tok r2, o.firstResp = .ok resp ∧ resp.statusCode = 401 ∧
          resp.wwwAuthenticate ≠ "" ∧
          exchangeToken o resp.wwwAuthenticate (ParseImageRef r) = (tevts, .ok tok) ∧
          o.secondResp = .ok r2 ∧ r2.statusCode = 200 ∧
          r2.digestHeader ≠ ""))) := by
  refine ⟨?_, ?_, ?_, ?_, ?_⟩
  · intro resp hf hs
    rw [checkDigest_200 hf hs]
    constructor
    · intro hd
      simp [hd]
    · intro hd
      simp [hd, isErr]
  · intro e hf
    rw [checkDigest_first_error hf]
    rfl
  · intro resp hf h2 h4
    rw [checkDigest_other hf h2 h4]
    exact ⟨rfl, rfl⟩
  · intro resp hf hs
    refine ⟨?_, ?_, ?_, ?_⟩
    · intro hor
      by_cases hw : resp.wwwAuthenticate = ""
      · rw [checkDigest_401_no_challenge hf hs hw]
        exact ⟨rfl, rfl, rfl⟩
      · have hrealm : mapGet (parseChallenge resp.wwwAuthenticate) "realm" = "" := by
          rcases hor with hw2 | hrealm
          · exact absurd hw2 hw
          · exact hrealm
        rw [checkDigest_401 hf hs hw, exchangeToken_realm_missing hrealm]
        exact ⟨rfl, rfl, rfl⟩
    · intro hw hrealm
      rcases hx : exchangeToken o resp.wwwAuthenticate (ParseImageRef r) with ⟨tevts, res⟩
      have htr : tevts =
          [.tokenRequest (tokenURLOf (parseChallenge resp.wwwAuthenticate)
            (ParseImageRef r))] := by
        have h2 := @exchangeToken_trace o resp.wwwAuthenticate (ParseImageRef r) hrealm
        rw [hx] at h2
        exact h2
      subst htr
      cases res with
      | error e =>
        rw [checkDigest_401_err hf hs hw hx]
        rfl
      | ok tok =>
        rw [checkDigest_401_ok_trace hf hs hw hx]
        rfl
    · intro body hw hrealm hts htb
      refine ⟨?_, ?_, ?_⟩
      · intro hbt hba
        rcases hx : exchangeToken o resp.wwwAuthenticate (ParseImageRef r)
          with ⟨tevts, res⟩
        have hres : res = .error "empty token in response" := by
          have h2 := @exchangeToken_result_of_body o resp.wwwAuthenticate
            (ParseImageRef r) body hrealm hts htb
          rw [hx] at h2
          simpa [hbt, hba] using h2
        subst hres
        rw [checkDigest_401_err hf hs hw hx]
        rfl
      · intro hbt
        have h2 := @exchangeToken_result_of_body o resp.wwwAuthenticate
          (ParseImageRef r) body hrealm hts htb
        simpa [hbt] using h2
      · intro hbt hba
        have h2 := @exchangeToken_result_of_body o resp.wwwAuthenticate
          (ParseImageRef r) body hrealm hts htb
        simpa [hbt, hba] using h2
    · intro tevts tok hw hx
      have hrealm := exchangeToken_ok_realm hx
      have htr : tevts =
          [.tokenRequest (tokenURLOf (parseChallenge resp.wwwAuthenticate)
            (ParseImageRef r))] := by
        have h2 := @exchangeToken_trace o resp.wwwAuthenticate (ParseImageRef r) hrealm
        rw [hx] at h2
        exact h2
      refine ⟨checkDigest_401_ok_trace hf hs hw hx, ?_, ?_, ?_⟩
      · rw [checkDigest_401_ok_trace hf hs hw hx, htr]
        rfl
      · intro e2 hsr
        have hres := checkDigest_401_ok_result hf hs hw hx
        rw [hsr] at hres
        rw [hres]
        rfl
      · intro r2 hsr
        have hres := checkDigest_401_ok_result hf hs hw hx
        rw [hsr] at hres
        refine ⟨?_, ?_, ?_⟩
        · intro hne
          rw [hres]
          simp [isErr, hne]
        · intro h200 hd
          rw [hres]
          simp [isErr, h200, hd]
        · intro h200 hd
          rw [hres]
          simp [h200, hd]
  · constructor
    · intro hok
      rcases hfe : o.firstResp with e | resp
      · rw [checkDigest_first_error hfe] at hok
        simp [isErr] at hok
      · by_cases h200 : resp.statusCode = 200
        · by_cases hd : resp.digestHeader = ""
          · rw [checkDigest_200 hfe h200] at hok
            simp [hd, isErr] at hok
          · exact Or.inl ⟨resp, rfl, h200, hd⟩
        · by_cases h401 : resp.statusCode = 401
          · by_cases hw : resp.wwwAuthenticate = ""
            · rw [checkDigest_401_no_challenge hfe h401 hw] at hok
              simp [isErr] at hok
            · rcases hx : exchangeToken o resp.wwwAuthenticate (ParseImageRef r)
                with ⟨tevts, res⟩
              cases res with
              | error e =>
                rw [checkDigest_401_err hfe h401 hw hx] at hok
                simp [isErr] at hok
              | ok tok =>
                have hres := checkDigest_401_ok_result hfe h401 hw hx
                rcases hsr : o.secondResp with e2 | r2
                · rw [hsr] at hres
                  rw [hres] at hok
                  simp [isErr] at hok
                · rw [hsr] at hres
                  by_cases hr200 : r2.statusCode = 200
                  · by_cases hrd : r2.digestHeader = ""
                    · rw [hres] at hok
                      simp [hr200, hrd, isErr] at hok
                    · exact Or.inr ⟨resp, tevts, tok, r2, rfl, h401, hw, hx,
                        rfl, hr200, hrd⟩
                  · rw [hres] at hok
                    simp [hr200, isErr] at hok
          · rw [checkDigest_other hfe h200 h401] at hok
            simp [isErr] at hok
    · intro hdisj
      rcases hdisj with ⟨resp, hfe, h200, hd⟩ |
        ⟨resp, tevts, tok, r2, hfe, h401, hw, hx, hsr, hr200, hrd⟩
      · rw [checkDigest_200 hfe h200]
        simp [hd, isErr]
      · have hres := checkDigest_401_ok_result hfe h401 hw hx
        rw [hsr] at hres
        rw [hres]
        simp [hr200, hrd, isErr]

/-- Concrete oracle whose first manifest HEAD answers 200 with a digest. -/
def regOracle200 : RegistryOracle :=
  { firstResp := .ok ⟨200, "sha256:abc", ""⟩
    tokenStatus := .ok 200
    tokenBody := .ok ⟨"", ""⟩
    secondResp := .ok ⟨200, "", ""⟩
    creds := none }

/-- Witness for C3: a first HEAD answering 200 with a digest header
returns that digest without a token exchange. -/
theorem c3_check_digest_spec_witness :
    CheckDigest regOracle200 "nginx" = ([.headManifest none], .ok "sha256:abc") := by
  exact ((c3_check_digest_spec regOracle200 "nginx").1 _ rfl rfl).1 (by decide)

/-- Container snapshot (`container.Info`): the subset of container state
the update checks and recreation read. Labels model the Go string map as
an association list. -/
structure Info where
  id : String
  name : String
  image : String
  imageID : String
  labels : List (String × String)
  state : String
  repoDigests : List String
deriving DecidableEq, Repr

/-- Docker Hub repository-name variants tried by `extractLocalDigest`:
`docker.io/<repo>`, `<repo>`, and for `library/` repositories also the
bare short name. -/
def matchesHubVariant (ref : ImageRef) (repoName : String) : Bool :=
  if ref.registry == dockerHub then
    let hubVariants := ["docker.io/" ++ ref.repository, ref.repository]
    let hubVariants :=
      if strStartsWith ref.repository "library/" then
        hubVariants ++ [strDrop ref.repository 8]
      else hubVariants
    hubVariants.any (fun v => repoName == v)
  else false

/-- One iteration of the `extractLocalDigest` loop: for a RepoDigests
entry of the form `repo@digest`, return the digest when the repo name
matches the reference exactly or via a Docker Hub variant. -/
def digestFromEntry (ref : ImageRef) (fullRepo rd : String) : Option String :=
  match lastIdx rd.data '@' with
  | none => none
  | some i =>
    let repoName := strTake rd i
    let digest := strDrop rd (i + 1)
    if repoName == fullRepo || repoName == ref.repository then some digest
    else if matchesHubVariant ref repoName then some digest
    else none

/-- The matching loop of `extractLocalDigest` over all RepoDigests. -/
def findDigest (ref : ImageRef) (fullRepo : String) : List String → Option String
  | [] => none
  | rd :: rest =>
    match digestFromEntry ref fullRepo rd with
    | some d => some d
    | none => findDigest ref fullRepo rest

/-- Embedding of `extractLocalDigest` from the updater: match RepoDigests
entries against repository-name variants, falling back to the first
entry's digest when nothing matches. -/
def extractLocalDigest (c : Info) : String :=
  match c.repoDigests with
  | [] => ""
  | first :: _ =>
    let ref := ParseImageRef c.image
    let fullRepo := ref.registry ++ "/" ++ ref.repository
    match findDigest ref fullRepo c.repoDigests with
    | some d => d
    | none =>
      match lastIdx first.data '@' with
      | some i => strDrop first (i + 1)
      | none => ""

/-- External call issued by the update decision procedure. -/
inductive UpEvent where
  | pull (imageRef : String)
deriving DecidableEq, Repr

/-- Oracle for one `checkForUpdate` call: the result of
`registry.CheckDigest(c.Image)` and of `docker.PullImage(c.Image)`
(the pulled image's ID). -/
structure UpdaterOracle where
  checkDigest : Except String String
  pullImage : Except String String

/-- Embedding of `pullAndCompare` from the updater: pull, propagate a
pull failure as an error, otherwise report an update exactly when the
pulled image ID differs from the snapshot's. -/
def pullAndCompare (o : UpdaterOracle) (c : Info) :
    List UpEvent × Except String Bool :=
  match o.pullImage with
  | .error e => ([.pull c.image], .error ("pulling image: " ++ e))
  | .ok newImageID => ([.pull c.image], .ok (newImageID != c.imageID))

/-- Embedding of `checkForUpdate` from the updater: fast registry digest
check first, pull-and-compare fallback when the check fails or no local
digest is available; on a digest mismatch pull and report update-needed. -/
def checkForUpdate (o : UpdaterOracle) (c : Info) :
    List UpEvent × Except String Bool :=
  match o.checkDigest with
  | .error _ => pullAndCompare o c
  | .ok remoteDigest =>
    let localDigest := extractLocalDigest c
    if localDigest == "" then pullAndCompare o c
    else if remoteDigest == localDigest then ([], .ok false)
    else
      match o.pullImage with
      | .error e => ([.pull c.image], .error ("pulling updated image: " ++ e))
      | .ok _ => ([.pull c.image], .ok true)

/-- C2: the hybrid decision — a digest-check failure or a missing local
digest falls back to pull-and-compare (never surfacing the digest-check
error); matching digests report up-to-date with no pull; differing
digests pull and report update-needed; the fallback reports an update
exactly when the pulled image ID differs; a pull failure in either path
is an error. -/
theorem c2_check_for_update_spec (o : UpdaterOracle) (c : Info) :
    (∀ e, o.checkDigest = .error e →
      checkForUpdate o c = pullAndCompare o c) ∧
    (∀ d, o.checkDigest = .ok d → extractLocalDigest c = "" →
      checkForUpdate o c = pullAndCompare o c) ∧
    (∀ d, o.checkDigest = .ok d → extractLocalDigest c ≠ "" →
      d = extractLocalDigest c →
      checkForUpdate o c = ([], .ok false)) ∧
    (∀ d, o.checkDigest = .ok d → extractLocalDigest c ≠ "" →
      d ≠ extractLocalDigest c →
      (∀ newID, o.pullImage = .ok newID →
        checkForUpdate o c = ([.pull c.image], .ok true)) ∧
      (∀ e, o.pullImage = .error e →
        checkForUpdate o c =
          ([.pull c.image], .error ("pulling updated image: " ++ e)))) ∧
    (∀ newID, o.pullImage = .ok newID →
      pullAndCompare o c = ([.pull c.image], .ok (newID != c.imageID))) ∧
    (∀ e, o.pullImage = .error e →
      pullAndCompare o c = ([.pull c.image], .error ("pulling image: " ++ e))) := by
  refine ⟨?_, ?_, ?_, ?_, ?_, ?_⟩
  · intro e hcd
    unfold checkForUpdate
    rw [hcd]
  · intro d hcd hl
    unfold checkForUpdate
    rw [hcd]
    simp [hl]
  · intro d hcd hl heq
    unfold checkForUpdate
    rw [hcd]
    simp [hl, heq]
  · intro d hcd hl hne
    constructor
    · intro newID hp
      unfold checkForUpdate
      rw [hcd]
      simp [hl, hne, hp]
    · intro e hp
      unfold checkForUpdate
      rw [hcd]
      simp [hl, hne, hp]
  · intro newID hp
    unfold pullAndCompare
    rw [hp]
  · intro e hp
    unfold pullAndCompare
    rw [hp]

/-- Witness for C2: matching remote and local digests report up-to-date
without pulling; the local digest is resolved through the bare-short-name
Docker Hub variant. -/
theorem c2_check_for_update_spec_witness :
    checkForUpdate { checkDigest := .ok "sha256:aaa", pullImage := .error "net down" }
      { id := "c1", name := "web", image := "nginx:latest", imageID := "sha256:i1",
        labels := [], state := "running",
        repoDigests := ["nginx@sha256:aaa"] } = ([], .ok false) := by
  exact (c2_check_for_update_spec
    { checkDigest := .ok "sha256:aaa", pullImage := .error "net down" }
    { id := "c1", name := "web", image := "nginx:latest", imageID := "sha256:i1",
      labels := [], state := "running",
      repoDigests := ["nginx@sha256:aaa"] }).2.2.1 "sha256:aaa" rfl
    (by decide) (by decide)

/-- The `isengard.enable` policy label key. -/
def labelEnable : String := "isengard.enable"

/-- Updater state consulted by the filter: the detected self container ID
and the watch-all / opt-in mode flag (`u.selfID`, `u.config.WatchAll`). -/
structure UpdaterCfg where
  selfID : String
  watchAll : Bool
deriving DecidableEq, Repr

/-- Embedding of `isSelf` from the updater: exact match or the detected
(possibly short) ID being a prefix of the container ID; an empty detected
ID never matches. -/
def isSelf (u : UpdaterCfg) (containerID : String) : Bool :=
  if u.selfID == "" then false
  else containerID == u.selfID || strStartsWith containerID u.selfID

/-- ASCII case folding of one character (Go `strings.EqualFold` restricted
to the ASCII values the code compares against). -/
def asciiFoldChar (c : Char) : Char :=
  if 'A' ≤ c && c ≤ 'Z' then Char.ofNat (c.toNat + 32) else c

/-- Case-insensitive ASCII string equality modelling `strings.EqualFold`. -/
def equalFold (s t : String) : Bool :=
  s.data.map asciiFoldChar == t.data.map asciiFoldChar

/-- Go map read of a label key, `none` when absent. -/
def lookupLabel (labels : List (String × String)) (k : String) : Option String :=
  match labels.find? (fun p => p.1 == k) with
  | some p => some p.2
  | none => none

/-- Embedding of `shouldSkip` from the updater: skip self, skip containers
with no pullable image reference (empty or a bare `sha256:` image ID), then
apply the label policy — watch-all skips only an explicit case-insensitive
`false`, opt-in keeps only an explicit case-insensitive `true`. -/
def shouldSkip (u : UpdaterCfg) (c : Info) : Bool :=
  if isSelf u c.id then true
  else if c.image == "" || strStartsWith c.image "sha256:" then true
  else
    match lookupLabel c.labels labelEnable with
    | some val =>
      if u.watchAll then equalFold val "false"
      else !(equalFold val "true")
    | none =>
      if u.watchAll then false else true

/-- C9: for a non-self container with a pullable image reference, the
watch-all mode includes it unless labeled `isengard.enable=false`
(case-insensitively), and the opt-in mode excludes it unless labeled
`isengard.enable=true` (case-insensitively); an unlabeled container is
included in watch-all mode and excluded in opt-in mode. -/
theorem c9_should_skip_spec (u : UpdaterCfg) (c : Info)
    (hself : isSelf u c.id = false)
    (himg : (c.image == "" || strStartsWith c.image "sha256:") = false) :
    (u.watchAll = true →
      (shouldSkip u c = true ↔
        ∃ v, lookupLabel c.labels labelEnable = some v ∧
          equalFold v "false" = true)) ∧
    (u.watchAll = false →
      (shouldSkip u c = false ↔
        ∃ v, lookupLabel c.labels labelEnable = some v ∧
          equalFold v "true" = true)) ∧
    (lookupLabel c.labels labelEnable = none →
      (u.watchAll = true → shouldSkip u c = false) ∧
      (u.watchAll = false → shouldSkip u c = true)) := by
  unfold shouldSkip
  rw [hself]
  simp only [Bool.false_eq_true, if_false, himg]
  refine ⟨?_, ?_, ?_⟩
  · intro hw
    cases hl : lookupLabel c.labels labelEnable with
    | some v => simp [hw]
    | none => simp [hw]
  · intro hw
    cases hl : lookupLabel c.labels labelEnable with
    | some v => simp [hw]
    | none => simp [hw]
  · intro hl
    rw [hl]
    constructor
    · intro hw
      simp [hw]
    · intro hw
      simp [hw]

/-- Witness for C9: with watch-all off, an `isengard.enable=True` label
(mixed case) keeps the container included. -/
theorem c9_should_skip_spec_witness :
    shouldSkip { selfID := "", watchAll := false }
      { id := "c1", name := "web", image := "nginx:latest", imageID := "i1",
        labels := [("isengard.enable", "True")], state := "running",
        repoDigests := [] } = false := by
  exact ((c9_should_skip_spec { selfID := "", watchAll := false }
    { id := "c1", name := "web", image := "nginx:latest", imageID := "i1",
      labels := [("isengard.enable", "True")], state := "running",
      repoDigests := [] } (by decide) (by decide)).2.1 rfl).2
    ⟨"True", by decide, by decide⟩

/-- Counterexample for C10: a digest-pinned reference of the form
`repository@sha256:...` is not excluded by `shouldSkip` — the filter only
tests for an empty image or a `sha256:`-prefixed bare image ID, and
`nginx@sha256:...` matches neither, so the unlabeled container is kept in
watch-all mode even though its reference has no mutable tag. -/
theorem c10_digest_pinned_counterexample :
    shouldSkip { selfID := "", watchAll := true }
      { id := "c1", name := "web",
        image := "nginx@sha256:0f9a1670e30e8e6a65c6b3be1db6e4d3ab32ad5e4c4e6a089007883b99c09b38",
        imageID := "i1", labels := [], state := "running",
        repoDigests := [] } = false := by
  decide

/-- C10 (amended): `shouldSkip` excludes, in either mode, exactly the
containers whose image reference is empty or is a bare image ID beginning
with `sha256:`; digest-pinned references of the form
`repository@sha256:...` are not excluded by this test. -/
theorem c10_should_skip_unpullable (u : UpdaterCfg) (c : Info)
    (himg : c.image = "" ∨ strStartsWith c.image "sha256:" = true) :
    shouldSkip u c = true := by
  unfold shouldSkip
  rcases himg with h | h
  · simp [h]
  · by_cases hs : isSelf u c.id
    · simp [hs]
    · simp [hs, h]

/-- Witness for C10 (amended): a container recorded only by bare image ID
is skipped. -/
theorem c10_should_skip_unpullable_witness :
    shouldSkip { selfID := "", watchAll := true }
      { id := "c1", name := "web", image := "sha256:abcd", imageID := "i1",
        labels := [], state := "running", repoDigests := [] } = true := by
  exact c10_should_skip_unpullable { selfID := "", watchAll := true }
    { id := "c1", name := "web", image := "sha256:abcd", imageID := "i1",
      labels := [], state := "running", repoDigests := [] }
    (Or.inr (by decide))

/-- Explicit mount entry (`mount.Mount`): the fields `convertMounts`
populates and the deduplication reads. -/
structure Mount where
  type : String
  source : String
  target : String
  readOnly : Bool
deriving DecidableEq, Repr

/-- Inspected mount point (`types.MountPoint`): the fields `convertMounts`
reads. -/
structure MountPoint where
  type : String
  source : String
  destination : String
  rw : Bool
deriving DecidableEq, Repr

/-- Container configuration (`container.Config`): the fields the
recreation procedure reads or writes — the image reference and the keys of
the declared-volumes map (modelled as a list of paths; the Go nil map and
empty map behave identically under the embedded operations). -/
structure ContainerConfig where
  image : String
  volumes : List String
deriving DecidableEq, Repr

/-- Host configuration (`container.HostConfig`): the bind list and the
explicit mount list, the fields the deduplication reads and writes. -/
structure HostConfig where
  binds : List String
  mounts : List Mount
deriving DecidableEq, Repr

/-- Embedding of `convertMounts`: turn inspected mount points back into
explicit mount entries. -/
def convertMounts (mountPoints : List MountPoint) : List Mount :=
  mountPoints.map (fun mp =>
    { type := mp.type, source := mp.source, target := mp.destination,
      readOnly := !mp.rw })

/-- Result of Go `strings.SplitN(s, c, 3)`: at most three parts, the last
keeping any further separators. -/
def splitN3 (s : String) (c : Char) : List String :=
  match firstIdx s.data c with
  | none => [s]
  | some i =>
    let rest := strDrop s (i + 1)
    match firstIdx rest.data c with
    | none => [strTake s i, rest]
    | some j => [strTake s i, strTake rest j, strDrop rest (j + 1)]

/-- Target path of a bind specification `source:dest` or
`source:dest:opts`; `none` when the bind has fewer than two parts. -/
def bindTarget (b : String) : Option String :=
  (splitN3 b ':').get? 1

/-- Whether some bind in the list targets `t` (the `bindTargets` /
`covered` set built from `hostConfig.Binds`). -/
def isBindTarget (binds : List String) (t : String) : Bool :=
  binds.any (fun b => bindTarget b == some t)

/-- Whether some explicit mount in the host config targets `path`. -/
def isMountTarget (hc : HostConfig) (path : String) : Bool :=
  hc.mounts.any (fun m => m.target == path)

/-- Embedding of `deduplicateMounts`: drop explicit mounts whose target is
already covered by a bind; no-op when either list is empty. -/
def deduplicateMounts (hc : HostConfig) : HostConfig :=
  if hc.mounts.isEmpty || hc.binds.isEmpty then hc
  else { hc with
    mounts := hc.mounts.filter (fun m => !(isBindTarget hc.binds m.target)) }

/-- Coverage test of `deduplicateVolumes`: the path is the target of an
explicit mount or of a bind. -/
def coveredPath (hc : HostConfig) (path : String) : Bool :=
  isMountTarget hc path || isBindTarget hc.binds path

/-- Embedding of `deduplicateVolumes`: drop declared volumes whose path is
covered by an explicit mount or a bind. -/
def deduplicateVolumes (cfg : ContainerConfig) (hc : HostConfig) :
    ContainerConfig :=
  { cfg with volumes := cfg.volumes.filter (fun p => !(coveredPath hc p)) }

/-- The duplicate-resolution step in source order: `deduplicateMounts`
then `deduplicateVolumes` against the deduplicated host config. -/
def dedupPlan (cfg : ContainerConfig) (hc : HostConfig) :
    ContainerConfig × HostConfig :=
  let hc2 := deduplicateMounts hc
  (deduplicateVolumes cfg hc2, hc2)

theorem dedupMounts_binds (hc : HostConfig) :
    (deduplicateMounts hc).binds = hc.binds := by
  unfold deduplicateMounts
  split <;> rfl

theorem mountTarget_dedup_not_bind {hc : HostConfig} {path : String}
    (h : isMountTarget (deduplicateMounts hc) path = true) :
    isBindTarget hc.binds path = false := by
  unfold deduplicateMounts at h
  by_cases he : (hc.mounts.isEmpty || hc.binds.isEmpty) = true
  · rw [if_pos he] at h
    rcases (by simpa using he :
        hc.mounts.isEmpty = true ∨ hc.binds.isEmpty = true) with hm | hb
    · unfold isMountTarget at h
      rw [List.isEmpty_iff.mp hm] at h
      simp at h
    · unfold isBindTarget
      rw [List.isEmpty_iff.mp hb]
      rfl
  · rw [if_neg he] at h
    unfold isMountTarget at h
    dsimp only at h
    rw [List.any_eq_true] at h
    obtain ⟨m, hm, ht⟩ := h
    rw [List.mem_filter] at hm
    have htgt : m.target = path := by simpa using ht
    have h2 := hm.2
    rw [htgt] at h2
    simpa using h2

theorem mem_dedup_volumes {cfg : ContainerConfig} {hc : HostConfig} {p : String} :
    p ∈ (deduplicateVolumes cfg hc).volumes ↔
      p ∈ cfg.volumes ∧ coveredPath hc p = false := by
  unfold deduplicateVolumes
  dsimp only
  rw [List.mem_filter]
  simp

/-- C6: after the duplicate-resolution step (`deduplicateMounts` then
`deduplicateVolumes`), no path is a creation target in more than one of
declared volumes, binds and explicit mounts; binds are untouched, mounts
and volumes only lose entries, and a declared volume covered by a bind or
by a surviving explicit mount is removed (bind and mount entries take
precedence over volumes, binds over mounts). -/
theorem c6_dedup_no_duplicate_targets (cfg : ContainerConfig) (hc : HostConfig)
    (path : String) :
    (¬ (path ∈ (dedupPlan cfg hc).1.volumes ∧
        isMountTarget (dedupPlan cfg hc).2 path = true)) ∧
    (¬ (path ∈ (dedupPlan cfg hc).1.volumes ∧
        isBindTarget (dedupPlan cfg hc).2.binds path = true)) ∧
    (¬ (isMountTarget (dedupPlan cfg hc).2 path = true ∧
        isBindTarget (dedupPlan cfg hc).2.binds path = true)) ∧
    (dedupPlan cfg hc).2.binds = hc.binds ∧
    (∀ m, m ∈ (dedupPlan cfg hc).2.mounts → m ∈ hc.mounts) ∧
    (∀ q, q ∈ (dedupPlan cfg hc).1.volumes → q ∈ cfg.volumes) ∧
    (isBindTarget hc.binds path = true →
      path ∉ (dedupPlan cfg hc).1.volumes) ∧
    (isMountTarget (deduplicateMounts hc) path = true →
      path ∉ (dedupPlan cfg hc).1.volumes) := by
  have hbinds : (deduplicateMounts hc).binds = hc.binds := dedupMounts_binds hc
  have hplan2 : (dedupPlan cfg hc).2 = deduplicateMounts hc := rfl
  refine ⟨?_, ?_, ?_, ?_, ?_, ?_, ?_, ?_⟩
  · rintro ⟨hv, hm⟩
    have hcov := (mem_dedup_volumes.mp hv).2
    unfold coveredPath at hcov
    rw [Bool.or_eq_false_iff] at hcov
    rw [hplan2, hcov.1] at hm
    exact Bool.noConfusion hm
  · rintro ⟨hv, hb⟩
    have hcov := (mem_dedup_volumes.mp hv).2
    unfold coveredPath at hcov
    rw [Bool.or_eq_false_iff] at hcov
    rw [hplan2, hcov.2] at hb
    exact Bool.noConfusion hb
  · rintro ⟨hm, hb⟩
    rw [hplan2] at hm hb
    have h2 := mountTarget_dedup_not_bind hm
    rw [hbinds, h2] at hb
    exact Bool.noConfusion hb
  · exact hbinds
  · intro m hm
    revert hm
    unfold dedupPlan deduplicateMounts
    dsimp only
    split
    · exact fun h => h
    · intro hm
      exact List.mem_of_mem_filter hm
  · intro q hq
    exact (mem_dedup_volumes.mp hq).1
  · intro hb hv
    have hcov := (mem_dedup_volumes.mp hv).2
    unfold coveredPath at hcov
    rw [Bool.or_eq_false_iff] at hcov
    rw [hbinds, hb] at hcov
    exact Bool.noConfusion hcov.2
  · intro hm hv
    have hcov := (mem_dedup_volumes.mp hv).2
    unfold coveredPath at hcov
    rw [Bool.or_eq_false_iff] at hcov
    rw [hm] at hcov
    exact Bool.noConfusion hcov.1

/-- Witness for C6: a declared volume `/config` duplicated by a bind
targeting `/config` is removed while the bind remains. -/
theorem c6_dedup_no_duplicate_targets_witness :
    "/config" ∉ (dedupPlan { image := "img", volumes := ["/config"] }
        { binds := ["/host/config:/config"], mounts := [] }).1.volumes ∧
    (dedupPlan { image := "img", volumes := ["/config"] }
        { binds := ["/host/config:/config"], mounts := [] }).2.binds =
      ["/host/config:/config"] := by
  refine ⟨?_, ?_⟩
  · exact (c6_dedup_no_duplicate_targets { image := "img", volumes := ["/config"] }
      { binds := ["/host/config:/config"], mounts := [] }
      "/config").2.2.2.2.2.2.1 (by decide)
  · exact (c6_dedup_no_duplicate_targets { image := "img", volumes := ["/config"] }
      { binds := ["/host/config:/config"], mounts := [] }
      "/config").2.2.2.1

theorem filter_idem {α : Type} (p : α → Bool) (l : List α) :
    (l.filter p).filter p = l.filter p := by
  induction l with
  | nil => rfl
  | cons a rest ih =>
    by_cases h : p a = true
    · simp [List.filter_cons, h, ih]
    · simp [List.filter_cons, h, ih]

theorem dedupMounts_idem (hc : HostConfig) :
    deduplicateMounts (deduplicateMounts hc) = deduplicateMounts hc := by
  unfold deduplicateMounts
  by_cases h : (hc.mounts.isEmpty || hc.binds.isEmpty) = true
  · rw [if_pos h, if_pos h]
  · rw [if_neg h]
    dsimp only
    by_cases h2 : ((hc.mounts.filter
        fun m => !(isBindTarget hc.binds m.target)).isEmpty ||
        hc.binds.isEmpty) = true
    · rw [if_pos h2]
    · rw [if_neg h2]
      congr 1
      exact filter_idem _ _

theorem dedupVolumes_idem (cfg : ContainerConfig) (hc : HostConfig) :
    deduplicateVolumes (deduplicateVolumes cfg hc) hc =
      deduplicateVolumes cfg hc := by
  unfold deduplicateVolumes
  dsimp only
  congr 1
  exact filter_idem _ _

/-- C7: the duplicate-resolution step is idempotent — applying
`deduplicateMounts` and `deduplicateVolumes` twice yields the same
volumes and mounts as applying them once. -/
theorem c7_dedup_idempotent (cfg : ContainerConfig) (hc : HostConfig) :
    dedupPlan (dedupPlan cfg hc).1 (dedupPlan cfg hc).2 = dedupPlan cfg hc := by
  simp only [dedupPlan]
  rw [dedupMounts_idem, dedupVolumes_idem]

/-- Network endpoint settings the recreation preserves: aliases and the
static IPv4 address (`nil` IPAM config modelled as `none`). -/
structure EndpointSettings where
  aliases : List String
  ipamIPv4 : Option String
deriving DecidableEq, Repr

/-- Inspected container state (`ContainerInspect` result): the fields the
recreation procedures read. Networks model the `NetworkSettings.Networks`
map as an association list (a `nil` settings object as the empty list). -/
structure InspectData where
  name : String
  config : ContainerConfig
  hostConfig : HostConfig
  mounts : List MountPoint
  networks : List (String × EndpointSettings)
deriving DecidableEq, Repr

/-- Strip the leading slash Docker puts on inspected container names. -/
def stripSlash (name : String) : String :=
  match name.data with
  | '/' :: rest => String.mk rest
  | _ => name

/-- Endpoint settings rebuilt for creation: aliases plus the IPv4 address
when an IPAM config is present (the fields the code copies). -/
def rebuildEndpoint (e : EndpointSettings) : EndpointSettings :=
  { aliases := e.aliases, ipamIPv4 := e.ipamIPv4 }

/-- Split the network attachments the way the recreation procedures do:
the first becomes the creation-time networking config, the rest are
connected afterwards. -/
def splitNetworks (networks : List (String × EndpointSettings)) :
    Option (String × EndpointSettings) × List (String × EndpointSettings) :=
  match networks with
  | [] => (none, [])
  | (n, e) :: rest =>
    (some (n, rebuildEndpoint e), rest.map (fun p => (p.1, rebuildEndpoint p.2)))

/-- RecreationPlan construction shared by `Recreate` and `RecreateSelf`:
replace the image, synthesize explicit mounts from the inspected mount
points when the host config has none, then deduplicate. -/
def buildPlan (insp : InspectData) (newImage : String) :
    ContainerConfig × HostConfig :=
  let config := { insp.config with image := newImage }
  let hostConfig := insp.hostConfig
  let hostConfig :=
    if !insp.mounts.isEmpty && hostConfig.mounts.isEmpty then
      { hostConfig with mounts := convertMounts insp.mounts }
    else hostConfig
  dedupPlan config hostConfig

/-- Oracle for the container-engine calls one recreation issues. The
`rename` result is keyed by the requested new name so the rename to the
temporary name and the rename back can answer differently;
`networkConnect` is keyed by the network name. Results the code ignores
(stop, network connect, final remove, rename-back) still appear in the
trace but cannot influence the outcome. -/
structure DockerEngine where
  inspect : Except String InspectData
  stop : Except String Unit
  remove : Except String Unit
  create : Except String String
  networkConnect : String → Except String Unit
  start : Except String Unit
  rename : String → Except String Unit

/-- One container-engine call issued during recreation. -/
inductive DEvent where
  | inspect (id : String)
  | stop (id : String) (timeout : Int)
  | removeContainer (id : String)
  | create (name : String) (cfg : ContainerConfig) (hc : HostConfig)
      (net : Option (String × EndpointSettings))
  | networkConnect (network : String) (containerID : String)
  | start (containerID : String)
  | rename (containerID : String) (newName : String)
deriving DecidableEq, Repr

/-- Embedding of `Recreate` from the container package: inspect, graceful
stop (failure only logged), force-remove, create under the original name
with the first network, connect the remaining networks (failures only
logged), start. Returns the trace of engine calls and the result. -/
def Recreate (eng : DockerEngine) (containerID newImageID : String)
    (stopTimeout : Int) : List DEvent × Except String String :=
  match eng.inspect with
  | .error e => ([.inspect containerID], .error ("inspecting container: " ++ e))
  | .ok insp =>
    let containerName := stripSlash insp.name
    let evs := [DEvent.inspect containerID, DEvent.stop containerID stopTimeout]
    match eng.remove with
    | .error e =>
      (evs ++ [.removeContainer containerID],
       .error ("removing container " ++ containerName ++ ": " ++ e))
    | .ok _ =>
      let plan := buildPlan insp newImageID
      let nets := splitNetworks insp.networks
      let evs := evs ++ [DEvent.removeContainer containerID,
        DEvent.create containerName plan.1 plan.2 nets.1]
      match eng.create with
      | .error e =>
        (evs, .error ("creating container " ++ containerName ++ ": " ++ e))
      | .ok newID =>
        let evs := evs ++ nets.2.map (fun p => DEvent.networkConnect p.1 newID)
        match eng.start with
        | .error e =>
          (evs ++ [.start newID],
           .error ("starting container " ++ containerName ++ ": " ++ e))
        | .ok _ => (evs ++ [.start newID], .ok newID)

/-- Embedding of `RecreateSelf` from the container package: inspect,
rename self to `<name>-old`, create the replacement under the original
name with the first network, connect the remaining networks, start the
replacement, and only then force-remove the original (result ignored).
A create failure issues a rename back to the original name; the ignored
stop-timeout parameter of the Go signature is kept. -/
def RecreateSelf (eng : DockerEngine) (containerID newImage : String)
    (_stopTimeout : Int) : List DEvent × Except String String :=
  match eng.inspect with
  | .error e => ([.inspect containerID], .error ("inspecting container: " ++ e))
  | .ok insp =>
    let containerName := stripSlash insp.name
    let plan := buildPlan insp newImage
    let nets := splitNetworks insp.networks
    let tempName := containerName ++ "-old"
    let evs := [DEvent.inspect containerID, DEvent.rename containerID tempName]
    match eng.rename tempName with
    | .error e => (evs, .error ("renaming self: " ++ e))
    | .ok _ =>
      let evs := evs ++ [DEvent.create containerName plan.1 plan.2 nets.1]
      match eng.create with
      | .error e =>
        (evs ++ [DEvent.rename containerID containerName],
         .error ("creating replacement: " ++ e))
      | .ok newID =>
        let evs := evs ++ nets.2.map (fun p => DEvent.networkConnect p.1 newID)
        match eng.start with
        | .error e =>
          (evs ++ [.start newID], .error ("starting replacement: " ++ e))
        | .ok _ =>
          (evs ++ [.start newID, .removeContainer containerID], .ok newID)

theorem recreate_inspect_error {eng : DockerEngine} {cid img : String} {t : Int}
    {e : String} (h : eng.inspect = .error e) :
    Recreate eng cid img t =
      ([.inspect cid], .error ("inspecting container: " ++ e)) := by
  unfold Recreate
  rw [h]

theorem recreate_remove_error {eng : DockerEngine} {cid img : String} {t : Int}
    {insp : InspectData} {e : String}
    (hi : eng.inspect = .ok insp) (hr : eng.remove = .error e) :
    Recreate eng cid img t =
      ([.inspect cid, .stop cid t, .removeContainer cid],
       .error ("removing container " ++ stripSlash insp.name ++ ": " ++ e)) := by
  unfold Recreate
  rw [hi]
  dsimp only
  rw [hr]
  simp

theorem recreate_create_error {eng : DockerEngine} {cid img : String} {t : Int}
    {insp : InspectData} {e : String}
    (hi : eng.inspect = .ok insp) (hr : eng.remove = .ok ())
    (hc : eng.create = .error e) :
    Recreate eng cid img t =
      ([.inspect cid, .stop cid t, .removeContainer cid,
        .create (stripSlash insp.name) (buildPlan insp img).1
          (buildPlan insp img).2 (splitNetworks insp.networks).1],
       .error ("creating container " ++ stripSlash insp.name ++ ": " ++ e)) := by
  unfold Recreate
  rw [hi]
  dsimp only
  rw [hr]
  dsimp only
  rw [hc]
  simp

theorem recreate_start_error {eng : DockerEngine} {cid img : String} {t : Int}
    {insp : InspectData} {newID e : String}
    (hi : eng.inspect = .ok insp) (hr : eng.remove = .ok ())
    (hc : eng.create = .ok newID) (hs : eng.start = .error e) :
    Recreate eng cid img t =
      ([.inspect cid, .stop cid t, .removeContainer cid,
        .create (stripSlash insp.name) (buildPlan insp img).1
          (buildPlan insp img).2 (splitNetworks insp.networks).1] ++
       (splitNetworks insp.networks).2.map
         (fun p => DEvent.networkConnect p.1 newID) ++
       [.start newID],
       .error ("starting container " ++ stripSlash insp.name ++ ": " ++ e)) := by
  unfold Recreate
  rw [hi]
  dsimp only
  rw [hr]
  dsimp only
  rw [hc]
  dsimp only
  rw [hs]
  simp

theorem recreate_success {eng : DockerEngine} {cid img : String} {t : Int}
    {insp : InspectData} {newID : String}
    (hi : eng.inspect = .ok insp) (hr : eng.remove = .ok ())
    (hc : eng.create = .ok newID) (hs : eng.start = .ok ()) :
    Recreate eng cid img t =
      ([.inspect cid, .stop cid t, .removeContainer cid,
        .create (stripSlash insp.name) (buildPlan insp img).1
          (buildPlan insp img).2 (splitNetworks insp.networks).1] ++
       (splitNetworks insp.networks).2.map
         (fun p => DEvent.networkConnect p.1 newID) ++
       [.start newID], .ok newID) := by
  unfold Recreate
  rw [hi]
  dsimp only
  rw [hr]
  dsimp only
  rw [hc]
  dsimp only
  rw [hs]
  simp

/-- C5 (amended): `Recreate` performs inspect, graceful stop, force-remove,
create (with the captured configuration under the new image and only the
first network attachment), connects each remaining network, then starts;
a stop or network-connect failure cannot influence the outcome, while a
failure at inspection, removal, creation, or start returns an error; when
the inspected container reports mount points but the captured host
configuration has no mounts, the explicit mount list is synthesized from
the mount points before creation. -/
theorem c5_recreate_spec (eng : DockerEngine) (cid img : String) (t : Int) :
    (∀ e, eng.inspect = .error e → isErr (Recreate eng cid img t).2 = true) ∧
    (∀ insp e, eng.inspect = .ok insp → eng.remove = .error e →
      isErr (Recreate eng cid img t).2 = true) ∧
    (∀ insp e, eng.inspect = .ok insp → eng.remove = .ok () →
      eng.create = .error e → isErr (Recreate eng cid img t).2 = true) ∧
    (∀ insp newID e, eng.inspect = .ok insp → eng.remove = .ok () →
      eng.create = .ok newID → eng.start = .error e →
      isErr (Recreate eng cid img t).2 = true) ∧
    (∀ insp newID, eng.inspect = .ok insp → eng.remove = .ok () →
      eng.create = .ok newID → eng.start = .ok () →
      Recreate eng cid img t =
        ([.inspect cid, .stop cid t, .removeContainer cid,
          .create (stripSlash insp.name) (buildPlan insp img).1
            (buildPlan insp img).2 (splitNetworks insp.networks).1] ++
         (splitNetworks insp.networks).2.map
           (fun p => DEvent.networkConnect p.1 newID) ++
         [.start newID], .ok newID)) ∧
    (∀ st f, Recreate { eng with stop := st, networkConnect := f } cid img t =
      Recreate eng cid img t) ∧
    (∀ insp, eng.inspect = .ok insp → insp.mounts ≠ [] →
      insp.hostConfig.mounts = [] →
      buildPlan insp img =
        dedupPlan { insp.config with image := img }
          { insp.hostConfig with mounts := convertMounts insp.mounts }) := by
  refine ⟨?_, ?_, ?_, ?_, ?_, ?_, ?_⟩
  · intro e h
    rw [recreate_inspect_error h]
    rfl
  · intro insp e hi hr
    rw [recreate_remove_error hi hr]
    rfl
  · intro insp e hi hr hc
    rw [recreate_create_error hi hr hc]
    rfl
  · intro insp newID e hi hr hc hs
    rw [recreate_start_error hi hr hc hs]
    rfl
  · intro insp newID hi hr hc hs
    exact recreate_success hi hr hc hs
  · intro st f
    rfl
  · intro insp hi hm hhc
    unfold buildPlan
    have h1 : insp.mounts.isEmpty = false := by
      cases hml : insp.mounts with
      | nil => exact absurd hml hm
      | cons a l => rfl
    have h2 : insp.hostConfig.mounts.isEmpty = true := by
      rw [hhc]
      rfl
    simp [h1, h2]

/-- Engine answering success everywhere, for a container on two networks. -/
def engTwoNets : DockerEngine :=
  { inspect := .ok
      { name := "/web", config := { image := "old", volumes := [] },
        hostConfig := { binds := [], mounts := [] },
        mounts := [],
        networks := [("net1", { aliases := [], ipamIPv4 := none }),
                     ("net2", { aliases := [], ipamIPv4 := none })] }
    stop := .ok ()
    remove := .ok ()
    create := .ok "n1"
    networkConnect := fun _ => .ok ()
    start := .ok ()
    rename := fun _ => .ok () }

/-- Counterexample for C5: with two networks, the remaining network is
attached after create but before start — the claim's
create-start-then-attach ordering does not hold on the code. -/
theorem c5_network_order_counterexample :
    (Recreate engTwoNets "c1" "img:2" 10).1 =
      [.inspect "c1", .stop "c1" 10, .removeContainer "c1",
       .create "web" { image := "img:2", volumes := [] }
         { binds := [], mounts := [] }
         (some ("net1", { aliases := [], ipamIPv4 := none })),
       .networkConnect "net2" "n1", .start "n1"] ∧
    List.indexOf (DEvent.networkConnect "net2" "n1")
        (Recreate engTwoNets "c1" "img:2" 10).1 <
      List.indexOf (DEvent.start "n1") (Recreate engTwoNets "c1" "img:2" 10).1 := by
  constructor
  · decide
  · decide

/-- Witness for C5: the success-path trace at the two-network engine. -/
theorem c5_recreate_spec_witness :
    Recreate engTwoNets "c1" "img:2" 10 =
      ([.inspect "c1", .stop "c1" 10, .removeContainer "c1",
        .create (stripSlash "/web") (buildPlan
          { name := "/web", config := { image := "old", volumes := [] },
            hostConfig := { binds := [], mounts := [] },
            mounts := [],
            networks := [("net1", { aliases := [], ipamIPv4 := none }),
                         ("net2", { aliases := [], ipamIPv4 := none })] } "img:2").1
          (buildPlan
          { name := "/web", config := { image := "old", volumes := [] },
            hostConfig := { binds := [], mounts := [] },
            mounts := [],
            networks := [("net1", { aliases := [], ipamIPv4 := none }),
                         ("net2", { aliases := [], ipamIPv4 := none })] } "img:2").2
          (splitNetworks
            [("net1", { aliases := [], ipamIPv4 := none }),
             ("net2", { aliases := [], ipamIPv4 := none })]).1] ++
       (splitNetworks
          [("net1", { aliases := [], ipamIPv4 := none }),
           ("net2", { aliases := [], ipamIPv4 := none })]).2.map
         (fun p => DEvent.networkConnect p.1 "n1") ++
       [.start "n1"], .ok "n1") := by
  exact (c5_recreate_spec engTwoNets "c1" "img:2" 10).2.2.2.2.1 _ "n1" rfl rfl rfl rfl

theorem recreateSelf_inspect_error {eng : DockerEngine} {cid img : String}
    {t : Int} {e : String} (h : eng.inspect = .error e) :
    RecreateSelf eng cid img t =
      ([.inspect cid], .error ("inspecting container: " ++ e)) := by
  unfold RecreateSelf
  rw [h]

theorem recreateSelf_rename_error {eng : DockerEngine} {cid img : String}
    {t : Int} {insp : InspectData} {e : String}
    (hi : eng.inspect = .ok insp)
    (hr : eng.rename (stripSlash insp.name ++ "-old") = .error e) :
    RecreateSelf eng cid img t =
      ([.inspect cid, .rename cid (stripSlash insp.name ++ "-old")],
       .error ("renaming self: " ++ e)) := by
  unfold RecreateSelf
  rw [hi]
  dsimp only
  rw [hr]

theorem recreateSelf_create_error {eng : DockerEngine} {cid img : String}
    {t : Int} {insp : InspectData} {e : String}
    (hi : eng.inspect = .ok insp)
    (hr : eng.rename (stripSlash insp.name ++ "-old") = .ok ())
    (hc : eng.create = .error e) :
    RecreateSelf eng cid img t =
      ([.inspect cid, .rename cid (stripSlash insp.name ++ "-old"),
        .create (stripSlash insp.name) (buildPlan insp img).1
          (buildPlan insp img).2 (splitNetworks insp.networks).1,
        .rename cid (stripSlash insp.name)],
       .error ("creating replacement: " ++ e)) := by
  unfold RecreateSelf
  rw [hi]
  dsimp only
  rw [hr]
  dsimp only
  rw [hc]
  simp

theorem recreateSelf_start_error {eng : DockerEngine} {cid img : String}
    {t : Int} {insp : InspectData} {newID e : String}
    (hi : eng.inspect = .ok insp)
    (hr : eng.rename (stripSlash insp.name ++ "-old") = .ok ())
    (hc : eng.create = .ok newID) (hs : eng.start = .error e) :
    RecreateSelf eng cid img t =
      ([.inspect cid, .rename cid (stripSlash insp.name ++ "-old"),
        .create (stripSlash insp.name) (buildPlan insp img).1
          (buildPlan insp img).2 (splitNetworks insp.networks).1] ++
       (splitNetworks insp.networks).2.map
         (fun p => DEvent.networkConnect p.1 newID) ++
       [.start newID], .error ("starting replacement: " ++ e)) := by
  unfold RecreateSelf
  rw [hi]
  dsimp only
  rw [hr]
  dsimp only
  rw [hc]
  dsimp only
  rw [hs]
  simp

theorem recreateSelf_success {eng : DockerEngine} {cid img : String}
    {t : Int} {insp : InspectData} {newID : String}
    (hi : eng.inspect = .ok insp)
    (hr : eng.rename (stripSlash insp.name ++ "-old") = .ok ())
    (hc : eng.create = .ok newID) (hs : eng.start = .ok ()) :
    RecreateSelf eng cid img t =
      ([.inspect cid, .rename cid (stripSlash insp.name ++ "-old"),
        .create (stripSlash insp.name) (buildPlan insp img).1
          (buildPlan insp img).2 (splitNetworks insp.networks).1] ++
       (splitNetworks insp.networks).2.map
         (fun p => DEvent.networkConnect p.1 newID) ++
       [.start newID, .removeContainer cid], .ok newID) := by
  unfold RecreateSelf
  rw [hi]
  dsimp only
  rw [hr]
  dsimp only
  rw [hc]
  dsimp only
  rw [hs]
  simp

/-- C1: `RecreateSelf` issues the self-update operations in the strict
order rename-original, create-replacement-under-original-name,
start-replacement, force-remove-original: the removal of the original
appears in a run's trace only on the full success path, positioned last,
after the rename, the create and the start — so the original container is
never force-removed before the replacement has been created and started. -/
theorem c1_recreate_self_order (eng : DockerEngine) (cid img : String) (t : Int) :
    ((DEvent.removeContainer cid) ∈ (RecreateSelf eng cid img t).1 →
      ∃ insp newID, eng.inspect = .ok insp ∧
        eng.rename (stripSlash insp.name ++ "-old") = .ok () ∧
        eng.create = .ok newID ∧ eng.start = .ok () ∧
        (RecreateSelf eng cid img t).1 =
          [.inspect cid, .rename cid (stripSlash insp.name ++ "-old"),
           .create (stripSlash insp.name) (buildPlan insp img).1
             (buildPlan insp img).2 (splitNetworks insp.networks).1] ++
          (splitNetworks insp.networks).2.map
            (fun p => DEvent.networkConnect p.1 newID) ++
          [.start newID, .removeContainer cid]) ∧
    (∀ insp newID, eng.inspect = .ok insp →
      eng.rename (stripSlash insp.name ++ "-old") = .ok () →
      eng.create = .ok newID → eng.start = .ok () →
      RecreateSelf eng cid img t =
        ([.inspect cid, .rename cid (stripSlash insp.name ++ "-old"),
          .create (stripSlash insp.name) (buildPlan insp img).1
            (buildPlan insp img).2 (splitNetworks insp.networks).1] ++
         (splitNetworks insp.networks).2.map
           (fun p => DEvent.networkConnect p.1 newID) ++
         [.start newID, .removeContainer cid], .ok newID)) := by
  constructor
  · intro hmem
    rcases hie : eng.inspect with e | insp
    · rw [recreateSelf_inspect_error hie] at hmem
      simp at hmem
    · rcases hre : eng.rename (stripSlash insp.name ++ "-old") with e | u
      · rw [recreateSelf_rename_error hie hre] at hmem
        simp at hmem
      · rcases hce : eng.create with e | newID
        · rw [recreateSelf_create_error hie hre hce] at hmem
          simp at hmem
        · rcases hse : eng.start with e | v
          · rw [recreateSelf_start_error hie hre hce hse] at hmem
            simp at hmem
          · exact ⟨insp, newID, rfl, hre, rfl, rfl,
              congrArg Prod.fst (recreateSelf_success hie hre hce hse)⟩
  · intro insp newID hi hr hc hs
    exact recreateSelf_success hi hr hc hs

/-- Engine answering success everywhere for the self container. -/
def engSelfOK : DockerEngine :=
  { inspect := .ok
      { name := "/isengard", config := { image := "old", volumes := [] },
        hostConfig := { binds := [], mounts := [] },
        mounts := [], networks := [] }
    stop := .ok ()
    remove := .ok ()
    create := .ok "r1"
    networkConnect := fun _ => .ok ()
    start := .ok ()
    rename := fun _ => .ok () }

/-- Witness for C1: the removal is present at the success engine, and the
trace has the rename-create-start-remove shape. -/
theorem c1_recreate_self_order_witness :
    ∃ insp newID, engSelfOK.inspect = .ok insp ∧
      engSelfOK.rename (stripSlash insp.name ++ "-old") = .ok () ∧
      engSelfOK.create = .ok newID ∧ engSelfOK.start = .ok () ∧
      (RecreateSelf engSelfOK "abc" "img:2" 30).1 =
        [.inspect "abc", .rename "abc" (stripSlash insp.name ++ "-old"),
         .create (stripSlash insp.name) (buildPlan insp "img:2").1
           (buildPlan insp "img:2").2 (splitNetworks insp.networks).1] ++
        (splitNetworks insp.networks).2.map
          (fun p => DEvent.networkConnect p.1 newID) ++
        [.start newID, .removeContainer "abc"] := by
  exact (c1_recreate_self_order engSelfOK "abc" "img:2" 30).1 (by decide)

theorem self_ne_append_old (s : String) : s ≠ s ++ "-old" := by
  intro h
  have hl := congrArg String.length h
  rw [String.length_append] at hl
  have h4 : ("-old" : String).length = 4 := rfl
  rw [h4] at hl
  omega

/-- C4 (amended): if creating the replacement fails during a self-update,
`RecreateSelf` issues a rename of the original container back to its
proper name and returns an error (as it does trivially when the initial
rename itself fails, where the name was never changed); if starting the
replacement fails, it returns an error without reverting the rename. -/
theorem c4_self_update_revert (eng : DockerEngine) (cid img : String) (t : Int)
    (insp : InspectData) (hi : eng.inspect = .ok insp) :
    (∀ e, eng.rename (stripSlash insp.name ++ "-old") = .ok () →
      eng.create = .error e →
      isErr (RecreateSelf eng cid img t).2 = true ∧
      (RecreateSelf eng cid img t).1 =
        [.inspect cid, .rename cid (stripSlash insp.name ++ "-old"),
         .create (stripSlash insp.name) (buildPlan insp img).1
           (buildPlan insp img).2 (splitNetworks insp.networks).1,
         .rename cid (stripSlash insp.name)]) ∧
    (∀ e, eng.rename (stripSlash insp.name ++ "-old") = .error e →
      isErr (RecreateSelf eng cid img t).2 = true ∧
      (RecreateSelf eng cid img t).1 =
        [.inspect cid, .rename cid (stripSlash insp.name ++ "-old")]) ∧
    (∀ newID e, eng.rename (stripSlash insp.name ++ "-old") = .ok () →
      eng.create = .ok newID → eng.start = .error e →
      isErr (RecreateSelf eng cid img t).2 = true ∧
      (DEvent.rename cid (stripSlash insp.name)) ∉
        (RecreateSelf eng cid img t).1) := by
  refine ⟨?_, ?_, ?_⟩
  · intro e hr hc
    rw [recreateSelf_create_error hi hr hc]
    exact ⟨rfl, rfl⟩
  · intro e hr
    rw [recreateSelf_rename_error hi hr]
    exact ⟨rfl, rfl⟩
  · intro newID e hr hc hs
    rw [recreateSelf_start_error hi hr hc hs]
    refine ⟨rfl, ?_⟩
    intro hmem
    have hne := self_ne_append_old (stripSlash insp.name)
    simp [List.mem_append, List.mem_cons, List.mem_map, hne] at hmem

/-- Inspect result for the self container used by the C4 engines. -/
def inspSelf : InspectData :=
  { name := "/isengard"
    config := { image := "old", volumes := [] }
    hostConfig := { binds := [], mounts := [] }
    mounts := []
    networks := [] }

/-- Engine whose start of the replacement fails during self-update. -/
def engStartFails : DockerEngine :=
  { inspect := .ok inspSelf
    stop := .ok ()
    remove := .ok ()
    create := .ok "r1"
    networkConnect := fun _ => .ok ()
    start := .error "boom"
    rename := fun _ => .ok () }

/-- Counterexample for C4: when starting the replacement fails, the run
returns an error but no rename back to the original name is issued — the
original container is left under its temporary `-old` name, contrary to
the claim that a start failure also reverts the rename. -/
theorem c4_start_failure_counterexample :
    isErr (RecreateSelf engStartFails "abc" "img:2" 30).2 = true ∧
    (DEvent.rename "abc" "isengard") ∉
      (RecreateSelf engStartFails "abc" "img:2" 30).1 ∧
    (DEvent.rename "abc" "isengard-old") ∈
      (RecreateSelf engStartFails "abc" "img:2" 30).1 := by
  refine ⟨by decide, by decide, by decide⟩

/-- Engine whose create of the replacement fails during self-update. -/
def engCreateFails : DockerEngine :=
  { inspect := .ok inspSelf
    stop := .ok ()
    remove := .ok ()
    create := .error "no image"
    networkConnect := fun _ => .ok ()
    start := .ok ()
    rename := fun _ => .ok () }

/-- Witness for C4 (amended): a create failure yields an error and a
trace ending in the rename back to the original name. -/
theorem c4_self_update_revert_witness :
    isErr (RecreateSelf engCreateFails "abc" "img:2" 30).2 = true ∧
    (RecreateSelf engCreateFails "abc" "img:2" 30).1 =
      [.inspect "abc", .rename "abc" (stripSlash inspSelf.name ++ "-old"),
       .create (stripSlash inspSelf.name) (buildPlan inspSelf "img:2").1
         (buildPlan inspSelf "img:2").2 (splitNetworks inspSelf.networks).1,
       .rename "abc" (stripSlash inspSelf.name)] := by
  exact (c4_self_update_revert engCreateFails "abc" "img:2" 30 _ rfl).1
    "no image" rfl rfl
